import Mathlib

/-!
Shallow embedding of the transactional core of the `hostd` storage host:

* `host/accounts/budget.go` — the `budget` type with its operations
  `Remaining`, `Empty`, `Refund`, `Spend`, `Rollback`, `Commit`, together
  with the `AccountManager`'s in-memory balance table that `Rollback` and
  `Commit` mutate.
* the contract sector-root update transaction (`AppendSector`,
  `SwapSectors`, `TrimSectors` issued inside `ContractStore.RunUpdate`),
  whose implementation is not part of the sources at hand (only its test,
  `TestUpdateContractRoots`, is), and is therefore modelled from the spec.

Currency is `go.sia.tech/siad/types.Currency`, an arbitrary-precision
non-negative integer; we embed it as `Nat`.  siad's `Currency.Sub(x, y)`
returns `x - y` when `x ≥ y`; when `x < y` it raises a negative-currency
`build.Critical` (a panic in debug builds) and returns the minuend `x`
unchanged.  `Currency.sub` below reproduces that value semantics.

Go panics (`panic("budget already committed")`, …) are embedded as the
`Outcome.fatal` branch; recoverable Go errors as `Outcome.error`, which
carries the (unchanged) state alongside the error so that "state is left
unchanged on failure" is expressible; successful in-place mutation is
embedded as returning the updated state in `Outcome.ok`.
-/

abbrev Currency := Nat

/-- siad `types.Currency.Sub`: truncating subtraction that returns the
minuend unchanged on underflow (after raising a negative-currency
critical, which halts debug builds). -/
def Currency.sub (x y : Currency) : Currency :=
  if x < y then x else x - y

abbrev AccountID := Nat

/-- One entry of the AccountManager's in-memory `balances` map:
the spendable balance and the number of open budget transactions. -/
structure AccountState where
  balance : Currency
  openTxns : Int
  deriving DecidableEq

/-- The `budget` struct of `host/accounts/budget.go` (the `am` pointer is
passed explicitly to the operations that use it). -/
structure Budget where
  accountID : AccountID
  max : Currency
  spent : Currency
  committed : Bool
  deriving DecidableEq

/-- The AccountManager's `balances` map, embedded as an association list. -/
abbrev Balances := List (AccountID × AccountState)

def Balances.lookup : Balances → AccountID → Option AccountState
  | [], _ => none
  | (k, v) :: rest, id => if k = id then some v else Balances.lookup rest id

def Balances.insert : Balances → AccountID → AccountState → Balances
  | [], id, st => [(id, st)]
  | (k, v) :: rest, id, st =>
    if k = id then (id, st) :: rest else (k, v) :: Balances.insert rest id st

def Balances.erase : Balances → AccountID → Balances
  | [], _ => []
  | (k, v) :: rest, id => if k = id then rest else (k, v) :: Balances.erase rest id

/-- Recoverable errors surfaced by budget operations. -/
inductive BudgetError where
  /-- `ErrInsufficientBudget`, wrapped by `Spend`'s `fmt.Errorf`. -/
  | insufficientBudget
  /-- `fmt.Errorf("failed to debit account: %w", err)` wrapping the
  `AccountStore.Debit` error `e`. -/
  | debitFailed (e : String)
  deriving DecidableEq

/-- Result of a budget operation: `fatal` embeds a Go panic, `error` a
returned Go error (carrying the state, which the code left unchanged),
`ok` the state after successful in-place mutation. -/
inductive Outcome (α : Type) where
  | fatal (msg : String)
  | error (e : BudgetError) (a : α)
  | ok (a : α)
  deriving DecidableEq

def Outcome.isFatal : Outcome α → Bool
  | .fatal _ => true
  | _ => false

/-- `func (b *budget) Remaining() types.Currency { return b.max.Sub(b.spent) }` -/
def Budget.remaining (b : Budget) : Currency :=
  Currency.sub b.max b.spent

/-- `func (b *budget) Empty() (spent types.Currency)`:
panics if committed; otherwise `spent, b.spent = b.spent, b.max` — the
named return value takes the old `b.spent` and `b.spent` becomes `b.max`. -/
def Budget.emptyBudget (b : Budget) : Outcome (Currency × Budget) :=
  if b.committed then .fatal "budget already committed"
  else .ok (b.spent, { b with spent := b.max })

/-- `func (b *budget) Refund(amount types.Currency)`: panics if committed
or if `amount` exceeds `spent`; otherwise `b.spent = b.spent.Sub(amount)`. -/
def Budget.refund (b : Budget) (amount : Currency) : Outcome Budget :=
  if b.committed then .fatal "budget already committed"
  else if b.spent < amount then .fatal "cannot refund more than spent"
  else .ok { b with spent := Currency.sub b.spent amount }

/-- `func (b *budget) Spend(amount types.Currency) error`:
`spent := b.spent.Add(amount); if b.max.Cmp(spent) < 0` return the
insufficient-budget error (state untouched), else `b.spent = spent`.
There is no committed check in the source. -/
def Budget.spend (b : Budget) (amount : Currency) : Outcome Budget :=
  let spent := b.spent + amount
  if b.max < spent then .error .insufficientBudget b
  else .ok { b with spent := spent }

/-- `func (b *budget) Rollback() error`: no-op if committed; otherwise
looks the account up (panicking if missing), decrements `openTxns`,
deletes the entry when the count reaches zero, and otherwise adds the full
`b.max` back to the spendable balance. -/
def Budget.rollback (b : Budget) (bal : Balances) : Outcome (Budget × Balances) :=
  if b.committed then .ok (b, bal)
  else
    match Balances.lookup bal b.accountID with
    | none => .fatal "account missing from memory"
    | some state =>
      let state : AccountState := { state with openTxns := state.openTxns - 1 }
      if state.openTxns = 0 then .ok (b, Balances.erase bal b.accountID)
      else .ok (b, Balances.insert bal b.accountID
        { state with balance := state.balance + b.max })

/-- `func (b *budget) Commit() error`: panics if committed; calls
`b.am.store.Debit(b.accountID, b.spent)` and propagates its error without
mutating anything; otherwise computes `rem := b.max.Sub(b.spent)`, zeroes
`b.max`/`b.spent`, sets `committed`, then updates the in-memory table:
looks the account up (panicking if missing), decrements `openTxns`,
deletes the entry when the count reaches zero, and otherwise executes
`state.balance = state.balance.Add(b.max.Sub(rem))` — note that `b.max`
has already been zeroed at this point, so the summand is
`Currency.sub 0 rem`. -/
def Budget.commit (debit : AccountID → Currency → Except String Currency)
    (b : Budget) (bal : Balances) : Outcome (Budget × Balances) :=
  if b.committed then .fatal "budget already committed"
  else
    match debit b.accountID b.spent with
    | .error e => .error (.debitFailed e) (b, bal)
    | .ok _ =>
      let rem := Currency.sub b.max b.spent
      let b' : Budget := { b with max := 0, spent := 0, committed := true }
      match Balances.lookup bal b.accountID with
      | none => .fatal "account missing from memory"
      | some state =>
        let state : AccountState := { state with openTxns := state.openTxns - 1 }
        if state.openTxns = 0 then .ok (b', Balances.erase bal b.accountID)
        else .ok (b', Balances.insert bal b.accountID
          { state with balance := state.balance + Currency.sub b'.max rem })

/-- The budget operations, unified for stating the `spent ≤ max` invariant. -/
inductive BudgetOp where
  | spendOp (amount : Currency)
  | refundOp (amount : Currency)
  | emptyOp
  | rollbackOp
  | commitOp
  deriving DecidableEq

def applyBudgetOp (debit : AccountID → Currency → Except String Currency) :
    BudgetOp → Budget → Balances → Outcome (Budget × Balances)
  | .spendOp a, b, bal =>
    match b.spend a with
    | .fatal m => .fatal m
    | .error e b' => .error e (b', bal)
    | .ok b' => .ok (b', bal)
  | .refundOp a, b, bal =>
    match b.refund a with
    | .fatal m => .fatal m
    | .error e b' => .error e (b', bal)
    | .ok b' => .ok (b', bal)
  | .emptyOp, b, bal =>
    match b.emptyBudget with
    | .fatal m => .fatal m
    | .error e p => .error e (p.2, bal)
    | .ok p => .ok (p.2, bal)
  | .rollbackOp, b, bal => b.rollback bal
  | .commitOp, b, bal => Budget.commit debit b bal

/-! ### Contract sector-root update transaction

Modelled from the spec: the sqlite implementation of
`ContractStore.RunUpdate` / `UpdateContractTransaction` (`AppendSector`,
`SwapSectors`, `TrimSectors`) is not among the sources at hand — only its
test `TestUpdateContractRoots` is — so the ordered all-or-nothing batch
semantics below follows the spec's description: operations are applied in
issue order; `SwapSectors` fails if either index is ≥ the list's length at
validation time; `TrimSectors` fails if `n` exceeds the current length; an
error from any operation aborts the whole `RunUpdate` transaction, leaving
the stored sequence exactly as it was before the call. -/

abbrev SectorRoot := Nat

inductive UpdateErr where
  | indexOutOfRange
  deriving DecidableEq

/-- Operations issuable through an `UpdateContractTransaction` handle
(for the single contract the batch is scoped to). -/
inductive UpdateOp where
  | appendSector (root : SectorRoot)
  | swapSectors (i j : Nat)
  | trimSectors (n : Nat)
  deriving DecidableEq

/-- Modelled from the spec: one queued operation applied to the current
root list; `swapSectors` validates both indices against the current
length before exchanging the roots, `trimSectors` removes the last `n`. -/
def applyUpdateOp (l : List SectorRoot) : UpdateOp → Except UpdateErr (List SectorRoot)
  | .appendSector r => .ok (l ++ [r])
  | .swapSectors i j =>
    if h : i < l.length ∧ j < l.length then
      .ok ((l.set i (l.get ⟨j, h.2⟩)).set j (l.get ⟨i, h.1⟩))
    else .error .indexOutOfRange
  | .trimSectors n =>
    if l.length < n then .error .indexOutOfRange
    else .ok (l.take (l.length - n))

/-- Modelled from the spec: the batch applied in issue order, stopping at
the first failing operation. -/
def applyUpdateOps (l : List SectorRoot) : List UpdateOp → Except UpdateErr (List SectorRoot)
  | [] => .ok l
  | op :: ops =>
    match applyUpdateOp l op with
    | .error e => .error e
    | .ok l' => applyUpdateOps l' ops

/-- Modelled from the spec: `ContractStore.RunUpdate` — the stored
sequence after the transaction: all queued operations commit together, or
on any error the transaction aborts and the stored sequence is unchanged. -/
def runUpdate (l : List SectorRoot) (ops : List UpdateOp) : List SectorRoot :=
  match applyUpdateOps l ops with
  | .ok l' => l'
  | .error _ => l

example : runUpdate [10, 20, 30] [.appendSector 40] = [10, 20, 30, 40] := by decide
example : runUpdate [10, 20, 30] [.appendSector 40, .swapSectors 0 100] = [10, 20, 30] := by decide
example : runUpdate [10, 20, 30] [.swapSectors 0 2] = [30, 20, 10] := by decide
example : runUpdate [10, 20, 30] [.trimSectors 1] = [10, 20] := by decide

/-! ### Sample inputs shared by witnesses -/

def sampleDebitOk : AccountID → Currency → Except String Currency :=
  fun _ _ => Except.ok 0

def sampleDebitFail : AccountID → Currency → Except String Currency :=
  fun _ _ => Except.error "disk failure"

/-! ### Helper lemmas -/

theorem applyUpdateOps_append (l : List SectorRoot) (xs ys : List UpdateOp) :
    applyUpdateOps l (xs ++ ys) =
      match applyUpdateOps l xs with
      | .error e => .error e
      | .ok l' => applyUpdateOps l' ys := by
  induction xs generalizing l with
  | nil => simp [applyUpdateOps]
  | cons op ops ih =>
    simp only [List.cons_append, applyUpdateOps]
    cases applyUpdateOp l op with
    | error e => rfl
    | ok l' => exact ih l'

/-- Claim C4: a `SwapSectors` whose index is equal to or beyond the current
list length (as left by the prior operations of the same batch) fails, the
enclosing `RunUpdate` transaction aborts, and the stored sector-root
sequence is left identical to its state before the call, even when other
operations in the same batch were valid. -/
theorem swap_out_of_range_aborts (l l' : List SectorRoot) (pre post : List UpdateOp)
    (i j : Nat) (hpre : applyUpdateOps l pre = .ok l')
    (hoob : l'.length ≤ i ∨ l'.length ≤ j) :
    runUpdate l (pre ++ UpdateOp.swapSectors i j :: post) = l := by
  have hfail : applyUpdateOp l' (UpdateOp.swapSectors i j) = .error .indexOutOfRange := by
    have hn : ¬(i < l'.length ∧ j < l'.length) := by omega
    simp [applyUpdateOp, hn]
  unfold runUpdate
  rw [applyUpdateOps_append, hpre]
  simp [applyUpdateOps, hfail]

theorem swap_out_of_range_aborts_witness :
    applyUpdateOps [10, 20, 30] [UpdateOp.appendSector 40] = .ok [10, 20, 30, 40] ∧
    ([10, 20, 30, 40] : List SectorRoot).length ≤ 100 ∧
    runUpdate [10, 20, 30] ([UpdateOp.appendSector 40] ++ UpdateOp.swapSectors 0 100 :: []) = [10, 20, 30] :=
  ⟨rfl, by decide,
    swap_out_of_range_aborts [10, 20, 30] [10, 20, 30, 40] [UpdateOp.appendSector 40] []
      0 100 rfl (Or.inr (by decide))⟩

/-! ### Claims about `budget.go` -/

/-- Claim C1, evaluated at the failing input: for the budget
`{accountID 1, max 2, spent 1}` with in-memory state `balance 10,
openTxns 2` and a succeeding debit, `Commit` leaves the spendable balance
at `10` — it adds `b.max.Sub(rem) = Currency.sub 0 1 = 0` (line 142 of
`budget.go` reads `b.max` after zeroing it) — although the unused
remainder is `rem = max - spent = 1`, so the claimed (and intended)
balance is `11`. -/
theorem commit_drops_remainder_at_failing_input :
    Budget.commit sampleDebitOk ⟨1, 2, 1, false⟩ [(1, ⟨10, 2⟩)]
      = Outcome.ok (⟨1, 0, 0, true⟩, [(1, ⟨10, 1⟩)]) ∧
    Currency.sub 2 1 = 1 ∧ (10 : Currency) ≠ 10 + Currency.sub 2 1 := by
  refine ⟨rfl, rfl, by decide⟩

/-- Claim C2, evaluated at the failing input: for the uncommitted budget
`{max 5, spent 2}`, `Empty` returns the prior `spent` value `2` (the
assignment `spent, b.spent = b.spent, b.max` puts the old `b.spent` into
the named return value), not the unspent delta
`max - spent = Currency.sub 5 2 = 3` the claim states. It does set
`spent` to `max`. -/
theorem empty_returns_prior_spent_at_failing_input :
    Budget.emptyBudget ⟨1, 5, 2, false⟩ = Outcome.ok (2, ⟨1, 5, 5, false⟩) ∧
    Currency.sub 5 2 = 3 ∧ (2 : Currency) ≠ 3 := by
  refine ⟨rfl, rfl, by decide⟩

/-- Claim C3, counterexample: `Spend` on a committed budget is not fatal —
the source's `Spend` has no committed check, so on the committed budget
`{max 0, spent 0}` it returns the recoverable `ErrInsufficientBudget` for
amount `1`, and even succeeds silently for amount `0`. -/
theorem spend_after_commit_not_fatal_cex :
    (⟨1, 0, 0, true⟩ : Budget).committed = true ∧
    Budget.spend ⟨1, 0, 0, true⟩ 1 = Outcome.error .insufficientBudget ⟨1, 0, 0, true⟩ ∧
    (Budget.spend ⟨1, 0, 0, true⟩ 1).isFatal = false ∧
    Budget.spend ⟨1, 0, 0, true⟩ 0 = Outcome.ok ⟨1, 0, 0, true⟩ := by
  refine ⟨rfl, rfl, rfl, rfl⟩

/-- Claim C3 as amended: on a committed budget, `Refund`, `Empty` and
`Commit` are fatal (they panic with an invariant-violation message), while
`Spend` never panics: it returns either `ErrInsufficientBudget` or
success, decided solely by `max`/`spent`. -/
theorem committed_mutations_fatal_except_spend
    (debit : AccountID → Currency → Except String Currency)
    (b : Budget) (bal : Balances) (amount : Currency) (h : b.committed = true) :
    (b.refund amount).isFatal = true ∧
    b.emptyBudget.isFatal = true ∧
    (Budget.commit debit b bal).isFatal = true ∧
    (b.spend amount).isFatal = false := by
  refine ⟨?_, ?_, ?_, ?_⟩
  · simp [Budget.refund, h, Outcome.isFatal]
  · simp [Budget.emptyBudget, h, Outcome.isFatal]
  · simp [Budget.commit, h, Outcome.isFatal]
  · simp only [Budget.spend]
    split <;> rfl

theorem committed_mutations_fatal_except_spend_witness :
    (⟨1, 0, 0, true⟩ : Budget).committed = true ∧
    (((⟨1, 0, 0, true⟩ : Budget).refund 1).isFatal = true ∧
     (⟨1, 0, 0, true⟩ : Budget).emptyBudget.isFatal = true ∧
     (Budget.commit sampleDebitOk ⟨1, 0, 0, true⟩ []).isFatal = true ∧
     ((⟨1, 0, 0, true⟩ : Budget).spend 1).isFatal = false) :=
  ⟨rfl, committed_mutations_fatal_except_spend sampleDebitOk ⟨1, 0, 0, true⟩ [] 1 rfl⟩

/-- Claim C5: on an uncommitted budget whose account is in the in-memory
table, `Rollback` decrements `openTxns`; when the count reaches zero the
account entry is removed from the table, and otherwise exactly the full
reservation `max` (not `max - spent`) is added back to the account's
spendable balance, regardless of how much was spent. -/
theorem rollback_restores_full_max (b : Budget) (bal : Balances) (st : AccountState)
    (hc : b.committed = false) (hl : Balances.lookup bal b.accountID = some st) :
    (st.openTxns - 1 = 0 →
      b.rollback bal = .ok (b, Balances.erase bal b.accountID)) ∧
    (st.openTxns - 1 ≠ 0 →
      b.rollback bal = .ok (b,
        Balances.insert bal b.accountID ⟨st.balance + b.max, st.openTxns - 1⟩)) := by
  constructor
  · intro h
    simp [Budget.rollback, hc, hl, h]
  · intro h
    simp [Budget.rollback, hc, hl, h]

theorem rollback_restores_full_max_witness :
    (⟨1, 5, 2, false⟩ : Budget).committed = false ∧
    Balances.lookup [(1, ⟨10, 2⟩)] (⟨1, 5, 2, false⟩ : Budget).accountID = some ⟨10, 2⟩ ∧
    (((⟨10, 2⟩ : AccountState).openTxns - 1 = 0 →
       (⟨1, 5, 2, false⟩ : Budget).rollback [(1, ⟨10, 2⟩)] =
         .ok (⟨1, 5, 2, false⟩, Balances.erase [(1, ⟨10, 2⟩)] (⟨1, 5, 2, false⟩ : Budget).accountID)) ∧
     ((⟨10, 2⟩ : AccountState).openTxns - 1 ≠ 0 →
       (⟨1, 5, 2, false⟩ : Budget).rollback [(1, ⟨10, 2⟩)] =
         .ok (⟨1, 5, 2, false⟩, Balances.insert [(1, ⟨10, 2⟩)] (⟨1, 5, 2, false⟩ : Budget).accountID
           ⟨(⟨10, 2⟩ : AccountState).balance + (⟨1, 5, 2, false⟩ : Budget).max,
            (⟨10, 2⟩ : AccountState).openTxns - 1⟩))) :=
  ⟨rfl, rfl, rollback_restores_full_max ⟨1, 5, 2, false⟩ [(1, ⟨10, 2⟩)] ⟨10, 2⟩ rfl rfl⟩

/-- Claim C6: on an uncommitted budget, `Spend(amount)` fails with
`ErrInsufficientBudget` and leaves the budget unchanged exactly when
`spent + amount > max`; otherwise it succeeds, sets `spent` to
`spent + amount`, and `Remaining()` then equals `max - (spent + amount)`
— i.e. `max` minus the cumulative successful spends. -/
theorem spend_characterization (b : Budget) (amount : Currency)
    (hc : b.committed = false) :
    (b.max < b.spent + amount →
      b.spend amount = .error .insufficientBudget b) ∧
    (b.spent + amount ≤ b.max →
      b.spend amount = .ok { b with spent := b.spent + amount } ∧
      Budget.remaining { b with spent := b.spent + amount } = b.max - (b.spent + amount)) := by
  constructor
  · intro h
    simp [Budget.spend, h]
  · intro h
    refine ⟨?_, ?_⟩
    · simp [Budget.spend, Nat.not_lt.mpr h]
    · simp [Budget.remaining, Currency.sub, Nat.not_lt.mpr h]

theorem spend_characterization_witness :
    (⟨1, 10, 2, false⟩ : Budget).committed = false ∧
    (((⟨1, 10, 2, false⟩ : Budget).max < (⟨1, 10, 2, false⟩ : Budget).spent + 3 →
       (⟨1, 10, 2, false⟩ : Budget).spend 3 = .error .insufficientBudget ⟨1, 10, 2, false⟩) ∧
     ((⟨1, 10, 2, false⟩ : Budget).spent + 3 ≤ (⟨1, 10, 2, false⟩ : Budget).max →
       (⟨1, 10, 2, false⟩ : Budget).spend 3 = .ok ⟨1, 10, 5, false⟩ ∧
       Budget.remaining ⟨1, 10, 5, false⟩ =
         (⟨1, 10, 2, false⟩ : Budget).max - ((⟨1, 10, 2, false⟩ : Budget).spent + 3))) :=
  ⟨rfl, spend_characterization ⟨1, 10, 2, false⟩ 3 rfl⟩

/-- Claim C7: when the durable debit inside `Commit` fails, `Commit`
propagates the debit error (wrapped as "failed to debit account") and
leaves everything unchanged: the budget's fields and the in-memory table
are returned exactly as they were. -/
theorem commit_debit_error_propagates
    (debit : AccountID → Currency → Except String Currency)
    (b : Budget) (bal : Balances) (e : String)
    (hc : b.committed = false) (hd : debit b.accountID b.spent = Except.error e) :
    Budget.commit debit b bal = .error (.debitFailed e) (b, bal) := by
  simp [Budget.commit, hc, hd]

theorem commit_debit_error_propagates_witness :
    (⟨1, 5, 2, false⟩ : Budget).committed = false ∧
    sampleDebitFail (⟨1, 5, 2, false⟩ : Budget).accountID (⟨1, 5, 2, false⟩ : Budget).spent
      = Except.error "disk failure" ∧
    Budget.commit sampleDebitFail ⟨1, 5, 2, false⟩ [(1, ⟨10, 2⟩)]
      = .error (.debitFailed "disk failure") (⟨1, 5, 2, false⟩, [(1, ⟨10, 2⟩)]) :=
  ⟨rfl, rfl,
    commit_debit_error_propagates sampleDebitFail ⟨1, 5, 2, false⟩ [(1, ⟨10, 2⟩)]
      "disk failure" rfl rfl⟩

/-- Claim C8: on a committed budget, `Rollback` is a success-returning
no-op — it returns the budget and the in-memory table unchanged (and
since the returned budget is still committed, repeated `Rollback` calls
keep returning the same success). -/
theorem rollback_after_commit_noop (b : Budget) (bal : Balances)
    (hc : b.committed = true) :
    b.rollback bal = .ok (b, bal) := by
  simp [Budget.rollback, hc]

theorem rollback_after_commit_noop_witness :
    (⟨1, 0, 0, true⟩ : Budget).committed = true ∧
    (⟨1, 0, 0, true⟩ : Budget).rollback [(1, ⟨10, 2⟩)] = .ok (⟨1, 0, 0, true⟩, [(1, ⟨10, 2⟩)]) :=
  ⟨rfl, rollback_after_commit_noop ⟨1, 0, 0, true⟩ [(1, ⟨10, 2⟩)] rfl⟩

/-- Claim C10: whenever `Commit` succeeds, the returned budget has
`max = 0`, `spent = 0` and `committed = true`, so `Remaining()` returns
zero thereafter. -/
theorem remaining_zero_after_commit
    (debit : AccountID → Currency → Except String Currency)
    (b b' : Budget) (bal bal' : Balances)
    (h : Budget.commit debit b bal = .ok (b', bal')) :
    b'.remaining = 0 ∧ b'.max = 0 ∧ b'.spent = 0 ∧ b'.committed = true := by
  unfold Budget.commit at h
  split at h
  · cases h
  · split at h
    · cases h
    · split at h
      · cases h
      · dsimp only at h
        split at h
        · injection h with h
          injection h with h1 h2
          subst h1
          refine ⟨rfl, rfl, rfl, rfl⟩
        · injection h with h
          injection h with h1 h2
          subst h1
          refine ⟨rfl, rfl, rfl, rfl⟩

theorem remaining_zero_after_commit_witness :
    Budget.commit sampleDebitOk ⟨1, 2, 1, false⟩ [(1, ⟨10, 2⟩)]
      = .ok (⟨1, 0, 0, true⟩, [(1, ⟨10, 1⟩)]) ∧
    ((⟨1, 0, 0, true⟩ : Budget).remaining = 0 ∧ (⟨1, 0, 0, true⟩ : Budget).max = 0 ∧
     (⟨1, 0, 0, true⟩ : Budget).spent = 0 ∧ (⟨1, 0, 0, true⟩ : Budget).committed = true) :=
  ⟨rfl, remaining_zero_after_commit sampleDebitOk ⟨1, 2, 1, false⟩ ⟨1, 0, 0, true⟩
    [(1, ⟨10, 2⟩)] [(1, ⟨10, 1⟩)] rfl⟩

theorem spend_ok_inv {b b' : Budget} {a : Currency} (h : b.spend a = .ok b') :
    b'.spent ≤ b'.max := by
  unfold Budget.spend at h
  dsimp only at h
  split at h
  · cases h
  · injection h with h
    subst h
    simpa using Nat.le_of_not_lt (by assumption)

theorem refund_ok_inv {b b' : Budget} {a : Currency} (hinv : b.spent ≤ b.max)
    (h : b.refund a = .ok b') : b'.spent ≤ b'.max := by
  unfold Budget.refund at h
  split at h
  · cases h
  · split at h
    · cases h
    · injection h with h
      subst h
      show Currency.sub b.spent a ≤ b.max
      simp only [Currency.sub]
      split
      · exact hinv
      · exact le_trans (Nat.sub_le _ _) hinv

theorem empty_ok_inv {b b' : Budget} {c : Currency}
    (h : b.emptyBudget = .ok (c, b')) : b'.spent ≤ b'.max := by
  unfold Budget.emptyBudget at h
  split at h
  · cases h
  · injection h with h
    injection h with h1 h2
    subst h2
    exact Nat.le_refl _

theorem rollback_ok_inv {b b' : Budget} {bal bal' : Balances} (hinv : b.spent ≤ b.max)
    (h : b.rollback bal = .ok (b', bal')) : b'.spent ≤ b'.max := by
  unfold Budget.rollback at h
  split at h
  · injection h with h
    injection h with h1 h2
    subst h1
    exact hinv
  · split at h
    · cases h
    · dsimp only at h
      split at h <;>
      · injection h with h
        injection h with h1 h2
        subst h1
        exact hinv

theorem commit_ok_inv {b b' : Budget} {bal bal' : Balances}
    {debit : AccountID → Currency → Except String Currency}
    (h : Budget.commit debit b bal = .ok (b', bal')) : b'.spent ≤ b'.max := by
  unfold Budget.commit at h
  split at h
  · cases h
  · split at h
    · cases h
    · split at h
      · cases h
      · dsimp only at h
        split at h <;>
        · injection h with h
          injection h with h1 h2
          subst h1
          exact Nat.le_refl _

/-- Claim C9: the invariant `0 ≤ spent ≤ max` holds after every successful
budget operation — `Spend` only succeeds when the new `spent` does not
exceed `max`, `Refund` only proceeds when the amount does not exceed
`spent`, `Empty` sets `spent = max`, `Commit` zeroes both fields, and
`Rollback` leaves them untouched. -/
theorem budget_invariant_preserved
    (debit : AccountID → Currency → Except String Currency)
    (op : BudgetOp) (b b' : Budget) (bal bal' : Balances)
    (hinv : b.spent ≤ b.max)
    (h : applyBudgetOp debit op b bal = .ok (b', bal')) :
    0 ≤ b'.spent ∧ b'.spent ≤ b'.max := by
  refine ⟨Nat.zero_le _, ?_⟩
  cases op with
  | spendOp a =>
    simp only [applyBudgetOp] at h
    cases hs : b.spend a with
    | fatal m => rw [hs] at h; cases h
    | error e bb => rw [hs] at h; cases h
    | ok bb =>
      rw [hs] at h
      injection h with h
      injection h with h1 h2
      subst h1
      exact spend_ok_inv hs
  | refundOp a =>
    simp only [applyBudgetOp] at h
    cases hs : b.refund a with
    | fatal m => rw [hs] at h; cases h
    | error e bb => rw [hs] at h; cases h
    | ok bb =>
      rw [hs] at h
      injection h with h
      injection h with h1 h2
      subst h1
      exact refund_ok_inv hinv hs
  | emptyOp =>
    simp only [applyBudgetOp] at h
    cases hs : b.emptyBudget with
    | fatal m => rw [hs] at h; cases h
    | error e p => rw [hs] at h; cases h
    | ok p =>
      rw [hs] at h
      injection h with h
      injection h with h1 h2
      subst h1
      exact empty_ok_inv (c := p.1) (by rw [hs])
  | rollbackOp =>
    exact rollback_ok_inv hinv h
  | commitOp =>
    exact commit_ok_inv h

theorem budget_invariant_preserved_witness :
    (⟨1, 10, 2, false⟩ : Budget).spent ≤ (⟨1, 10, 2, false⟩ : Budget).max ∧
    applyBudgetOp sampleDebitOk (.spendOp 3) ⟨1, 10, 2, false⟩ [(1, ⟨10, 2⟩)]
      = .ok (⟨1, 10, 5, false⟩, [(1, ⟨10, 2⟩)]) ∧
    (0 ≤ (⟨1, 10, 5, false⟩ : Budget).spent ∧
     (⟨1, 10, 5, false⟩ : Budget).spent ≤ (⟨1, 10, 5, false⟩ : Budget).max) :=
  ⟨by decide, rfl,
    budget_invariant_preserved sampleDebitOk (.spendOp 3) ⟨1, 10, 2, false⟩ ⟨1, 10, 5, false⟩
      [(1, ⟨10, 2⟩)] [(1, ⟨10, 2⟩)] (by decide) rfl⟩
